import Mathlib

/-!
Verification of the place-name resolution engine of the imsakiyah-time
application (src/src/App.jsx).

The engine converts free-form geocoder output into entries of fixed
reference lists of Indonesian provinces and cities.  The relevant source
functions are `findMatchingProvince`, `findMatchingCity`, the address
field selection inside `reverseGeocode`, and `setLocation`.

Strings are modelled as Lean `String` (a wrapper around `List Char`).
JavaScript's `toLowerCase` is modelled by ASCII lowercasing
(`Char.toLower`); every string handled by the engine (reference
vocabulary, geocoder fields, honorific tokens) is ASCII.  JavaScript's
`\s` character class is modelled by the ASCII whitespace characters;
the Unicode space separators it additionally covers do not occur in the
inputs considered.  `null`/`undefined` arguments are modelled as
`Option.none`; both are falsy and the source treats them identically.
-/

/-- ASCII whitespace, modelling the characters of JavaScript `\s`
    that can occur in the engine's inputs. -/
def isWs (c : Char) : Bool :=
  c = ' ' || c = '\t' || c = '\n' || c = '\r' || c = '\x0b' || c = '\x0c'

/-- Case-insensitive "token starts the text" test: `tok` is given in
    lowercase; the text characters are lowercased before comparison
    (modelling the `i` flag of the source regexes). -/
def ciStarts : List Char → List Char → Bool
  | [], _ => true
  | _ :: _, [] => false
  | a :: as, b :: bs => (Char.toLower b == a) && ciStarts as bs

/-- Ordered alternation `(t1|t2|...)` at the start of `cs`: the first
    alternative that matches wins; returns the remaining text. -/
def tryTokens (ts : List (List Char)) (cs : List Char) : Option (List Char) :=
  match ts with
  | [] => none
  | t :: rest => if ciStarts t cs then some (cs.drop t.length) else tryTokens rest cs

/-- One application of `.replace(/^(t1|t2|...)\s*/i, '')`: strip a single
    leading token of `ts` plus the following whitespace run. -/
def stripLead (ts : List (List Char)) (cs : List Char) : List Char :=
  match tryTokens ts cs with
  | some rest => rest.dropWhile isWs
  | none => cs

/-- One application of `.replace(/\s+(t1|t2|...)\s*/i, ' ')`: replace the
    leftmost occurrence of whitespace + token + trailing whitespace with a
    single space.  Since the tokens contain no whitespace, the token must
    start at the first non-whitespace character after the run, so no
    regex backtracking arises. -/
def replEmb (ts : List (List Char)) : List Char → List Char
  | [] => []
  | c :: cs =>
    if isWs c then
      match tryTokens ts ((c :: cs).dropWhile isWs) with
      | some rest => ' ' :: rest.dropWhile isWs
      | none => c :: replEmb ts cs
    else c :: replEmb ts cs

/-- JavaScript `String.prototype.trim` on the characters involved. -/
def trimChars (cs : List Char) : List Char :=
  ((cs.dropWhile isWs).reverse.dropWhile isWs).reverse

/-- ASCII lowercasing of a character list (JavaScript `toLowerCase`). -/
def lowerStr (cs : List Char) : List Char := cs.map Char.toLower

/-- `needle` starts `hay` (exact, case-sensitive). -/
def startsWithB : List Char → List Char → Bool
  | [], _ => true
  | _ :: _, [] => false
  | a :: as, b :: bs => (a == b) && startsWithB as bs

/-- Auxiliary recursion for substring containment. -/
def inclAux (needle : List Char) : List Char → Bool
  | [] => startsWithB needle []
  | c :: t => startsWithB needle (c :: t) || inclAux needle t

/-- JavaScript `hay.includes(needle)`. -/
def jsIncludes (hay needle : String) : Bool := inclAux needle.data hay.data

/- Token lists, verbatim from the source regexes (App.jsx lines 300-302,
   310, 322, 345-347, 357-358; duplicated alternatives of the source are
   kept). -/

/-- Alternatives of `/^(provinsi|prov|daerah|istimewa|khusus)\s*\/i`
    (query-side province normalization, line 301). -/
def provLeadTokens : List (List Char) :=
  ["provinsi".data, "prov".data, "daerah".data, "istimewa".data, "khusus".data]

/-- Alternatives of `/\s+(daerah|istimewa|khusus)\s*\/i` (line 302). -/
def provEmbTokens : List (List Char) :=
  ["daerah".data, "istimewa".data, "khusus".data]

/-- Alternatives of the entry-side strip in the exact-match step
    (line 310; the source lists `d.i.` twice). -/
def provEntryTokensA : List (List Char) :=
  ["provinsi".data, "prov".data, "d.i.".data, "d.i.".data, "daerah".data, "istimewa".data]

/-- Alternatives of the entry-side strip in the substring-match step (line 322). -/
def provEntryTokensB : List (List Char) :=
  ["provinsi".data, "prov".data, "d.i.".data, "daerah".data, "istimewa".data]

/-- Alternatives of the leading strip of the city query normalization
    (line 346; the source lists `kabupaten` twice). -/
def cityLeadTokens : List (List Char) :=
  ["kabupaten".data, "kabupaten".data, "kab".data, "kota".data, "city".data,
   "daerah".data, "khusus".data, "district".data, "regency".data, "municipality".data]

/-- Alternatives of the embedded strip of the city query normalization (line 347). -/
def cityEmbTokens : List (List Char) :=
  ["kabupaten".data, "kab".data, "kota".data, "city".data, "daerah".data, "khusus".data]

/-- Generic query-side normalizer: lowercase, strip one leading token,
    strip one embedded token, trim.  Both query normalizations of the
    source are instances of this. -/
def normWith (lead emb : List (List Char)) (s : String) : String :=
  ⟨trimChars (replEmb emb (stripLead lead (lowerStr s.data)))⟩

/-- Query-side province normalization (App.jsx lines 300-303). -/
def normalizeProvinceQuery : String → String := normWith provLeadTokens provEmbTokens

/-- Query-side city normalization (App.jsx lines 345-348). -/
def normalizeCityQuery : String → String := normWith cityLeadTokens cityEmbTokens

/-- Entry-side strip applied to each reference province in the
    exact-match step (App.jsx lines 309-311). -/
def provStripEntryExact (p : String) : String :=
  ⟨trimChars (stripLead provEntryTokensA (lowerStr p.data))⟩

/-- Entry-side strip applied to each reference province in the
    substring-match step (App.jsx lines 321-323). -/
def provStripEntryFuzzy (p : String) : String :=
  ⟨trimChars (stripLead provEntryTokensB (lowerStr p.data))⟩

/-- `.replace(/^kab\.?\s*\/i, '')`: strip leading `kab`, an optional
    period, and the following whitespace run (App.jsx line 357). -/
def stripKab (cs : List Char) : List Char :=
  if ciStarts "kab".data cs then
    match cs.drop 3 with
    | '.' :: r => r.dropWhile isWs
    | r => r.dropWhile isWs
  else cs

/-- `.replace(/^kota\s*\/i, '')` (App.jsx line 358). -/
def stripKota (cs : List Char) : List Char :=
  if ciStarts "kota".data cs then (cs.drop 4).dropWhile isWs else cs

/-- Entry-side strip applied to each reference city
    (App.jsx lines 356-359): lowercase, strip `kab.`, strip `kota`, trim. -/
def cityStrip (c : String) : String :=
  ⟨trimChars (stripKota (stripKab (lowerStr c.data)))⟩

/-- JavaScript truthiness of a possibly-absent string:
    `undefined`/`null` and the empty string are falsy. -/
def truthyOpt : Option String → Bool
  | none => false
  | some s => s != ""

/-- The exact-match step of `findMatchingProvince` (App.jsx lines 308-313). -/
def provExactStep (ps : List String) (q : String) : Option String :=
  ps.find? (fun p => provStripEntryExact p == q)

/-- The bidirectional substring-match step of `findMatchingProvince`
    (App.jsx lines 320-325). -/
def provFuzzyStep (ps : List String) (q : String) : Option String :=
  ps.find? (fun p =>
    jsIncludes (provStripEntryFuzzy p) q || jsIncludes q (provStripEntryFuzzy p))

/-- The exact-match step of `findMatchingCity` (App.jsx lines 354-362). -/
def cityExactStep (cl : List String) (q : String) : Option String :=
  cl.find? (fun c => cityStrip c == q)

/-- The bidirectional substring-match step of `findMatchingCity`
    (App.jsx lines 370-378). -/
def cityFuzzyStep (cl : List String) (q : String) : Option String :=
  cl.find? (fun c => jsIncludes (cityStrip c) q || jsIncludes q (cityStrip c))

/-- `findMatchingProvince` (App.jsx lines 293-332).  A falsy `name`
    returns null; then the exact step's result is returned when truthy,
    otherwise the substring step's result (whatever it is: the source
    ends with a plain `return match`). -/
def findMatchingProvince (provinces : List String) (name : Option String) : Option String :=
  match name with
  | none => none
  | some n =>
    if n == "" then none
    else if truthyOpt (provExactStep provinces (normalizeProvinceQuery n)) then
      provExactStep provinces (normalizeProvinceQuery n)
    else provFuzzyStep provinces (normalizeProvinceQuery n)

/-- `findMatchingCity` (App.jsx lines 334-393).  A falsy `name` or a
    missing/empty cities list returns null; otherwise as in
    `findMatchingProvince` with the city steps. -/
def findMatchingCity (name : Option String) (citiesList : Option (List String)) : Option String :=
  match name with
  | none => none
  | some n =>
    if n == "" then none
    else
      match citiesList with
      | none => none
      | some cl =>
        if cl.isEmpty then none
        else if truthyOpt (cityExactStep cl (normalizeCityQuery n)) then
          cityExactStep cl (normalizeCityQuery n)
        else cityFuzzyStep cl (normalizeCityQuery n)

/-- The geocoder address fields consulted by `reverseGeocode`
    (App.jsx lines 208-263); absent fields are `none`. -/
structure AddressRecord where
  state : Option String := none
  state_district : Option String := none
  region : Option String := none
  province : Option String := none
  county : Option String := none
  city : Option String := none
  town : Option String := none
  municipality : Option String := none

/-- The province candidate list of `reverseGeocode` (App.jsx lines
    215-221): the five fields in priority order, `.filter(Boolean)`
    dropping absent and empty values. -/
def provinceCandidates (a : AddressRecord) : List String :=
  ([a.state, a.state_district, a.region, a.province, a.county].filterMap id).filter
    (fun s => s != "")

/-- The candidate loop of `reverseGeocode` (App.jsx lines 225-231):
    try `findMatchingProvince` on each candidate in order, returning the
    first truthy result; a falsy final result is the not-found outcome
    (lines 233-238). -/
def findFirstProvince (provinces : List String) : List String → Option String
  | [] => none
  | c :: rest =>
    match findMatchingProvince provinces (some c) with
    | some m => if m == "" then findFirstProvince provinces rest else some m
    | none => findFirstProvince provinces rest

/-- The city field selection of `reverseGeocode` (App.jsx lines 243-263):
    first populated (truthy) field wins; returns (rawCityName, cityType). -/
def selectCity (a : AddressRecord) : Option String × Option String :=
  if truthyOpt a.county then (a.county, some "Kab.")
  else if truthyOpt a.city then (a.city, some "Kota")
  else if truthyOpt a.town then (a.town, none)
  else if truthyOpt a.municipality then (a.municipality, none)
  else (none, none)

/-- Building `cityNameForMatching` (App.jsx lines 272-278): prefix the
    raw name with the type hint when one was determined. -/
def cityQueryOf (raw : String) (hint : Option String) : String :=
  match hint with
  | some t => t ++ " " ++ raw
  | none => raw

/-- The caller-visible resolution state mutated by `setLocation`
    (the `useState` cells of App.jsx lines 10-14). -/
structure LocationState where
  selectedProvince : Option String := none
  selectedCity : Option String := none
  locating : Bool := true
  locationError : Option String := none

/-- The initial component state (App.jsx lines 10-14). -/
def initialLocationState : LocationState := {}

/-- JavaScript `a || b` on possibly-absent strings. -/
def jsOr (a b : Option String) : Option String :=
  if truthyOpt a then a else b

/-- `setLocation` (App.jsx lines 395-409), with the already-fetched
    cities list passed in (`fetchCities` is external I/O; on failure or
    an empty payload it yields `[]`).  Sets the province, matches the
    city with fallback to `citiesList[0]`, sets the city only when the
    result is truthy, and clears the locating flag.  `locationError` is
    not touched. -/
def setLocation (st : LocationState) (province cityName : String)
    (citiesList : List String) : LocationState :=
  let matched := findMatchingCity (some cityName) (some citiesList)
  let finalCity := jsOr matched citiesList.head?
  { st with
    selectedProvince := some province
    selectedCity := if truthyOpt finalCity then finalCity else st.selectedCity
    locating := false }

/-! ### Helper lemmas -/

theorem lengthDropWhileLe (p : Char → Bool) (l : List Char) :
    (List.dropWhile p l).length ≤ l.length := by
  induction l with
  | nil => simp
  | cons c t ih =>
    rw [List.dropWhile_cons]
    split
    · exact Nat.le_trans ih (by simp)
    · exact Nat.le_refl _

theorem dropWhileIdem (p : Char → Bool) (l : List Char) :
    List.dropWhile p (List.dropWhile p l) = List.dropWhile p l := by
  induction l with
  | nil => rfl
  | cons c t ih =>
    rw [List.dropWhile_cons]
    by_cases h : p c = true
    · rw [if_pos h]; exact ih
    · rw [if_neg h, List.dropWhile_cons, if_neg h]

theorem dropWhileFixOfAppend (p : Char → Bool) (l2 s : List Char)
    (h : List.dropWhile p (l2 ++ s) = l2 ++ s) : List.dropWhile p l2 = l2 := by
  cases l2 with
  | nil => rfl
  | cons c t =>
    rw [List.cons_append, List.dropWhile_cons] at h
    by_cases hc : p c = true
    · rw [if_pos hc] at h
      have h1 := congrArg List.length h
      have h2 := lengthDropWhileLe p (t ++ s)
      simp only [List.length_cons, List.length_append] at h1 h2
      omega
    · rw [List.dropWhile_cons, if_neg hc]

theorem trimCharsIdem (l : List Char) : trimChars (trimChars l) = trimChars l := by
  have hfix1 : List.dropWhile isWs (List.dropWhile isWs l) = List.dropWhile isWs l :=
    dropWhileIdem isWs l
  have hsplit : List.dropWhile isWs l =
      (List.dropWhile isWs (List.dropWhile isWs l).reverse).reverse ++
        (List.takeWhile isWs (List.dropWhile isWs l).reverse).reverse := by
    conv_lhs =>
      rw [← List.reverse_reverse (List.dropWhile isWs l),
        ← List.takeWhile_append_dropWhile isWs (List.dropWhile isWs l).reverse]
    rw [List.reverse_append]
  have hA : List.dropWhile isWs (List.dropWhile isWs (List.dropWhile isWs l).reverse).reverse =
      (List.dropWhile isWs (List.dropWhile isWs l).reverse).reverse :=
    dropWhileFixOfAppend isWs _ _ (by rw [← hsplit]; exact hfix1)
  show ((List.dropWhile isWs (trimChars l)).reverse.dropWhile isWs).reverse = trimChars l
  have htl : trimChars l = (List.dropWhile isWs (List.dropWhile isWs l).reverse).reverse := rfl
  rw [htl, hA, List.reverse_reverse, dropWhileIdem]

theorem findMatchingProvince_mem {ps : List String} {name : Option String} {r : String}
    (h : findMatchingProvince ps name = some r) : r ∈ ps := by
  cases name with
  | none => exact absurd h (by simp [findMatchingProvince])
  | some n =>
    simp only [findMatchingProvince] at h
    by_cases hn : (n == "") = true
    · rw [if_pos hn] at h
      exact absurd h (by simp)
    · rw [if_neg hn] at h
      by_cases ht : truthyOpt (provExactStep ps (normalizeProvinceQuery n)) = true
      · rw [if_pos ht] at h
        unfold provExactStep at h
        exact List.mem_of_find?_eq_some h
      · rw [if_neg ht] at h
        unfold provFuzzyStep at h
        exact List.mem_of_find?_eq_some h

theorem findMatchingCity_mem {name : Option String} {cl : List String} {r : String}
    (h : findMatchingCity name (some cl) = some r) : r ∈ cl := by
  cases name with
  | none => exact absurd h (by simp [findMatchingCity])
  | some n =>
    simp only [findMatchingCity] at h
    by_cases hn : (n == "") = true
    · rw [if_pos hn] at h
      exact absurd h (by simp)
    · rw [if_neg hn] at h
      by_cases he : cl.isEmpty = true
      · rw [if_pos he] at h
        exact absurd h (by simp)
      · rw [if_neg he] at h
        by_cases ht : truthyOpt (cityExactStep cl (normalizeCityQuery n)) = true
        · rw [if_pos ht] at h
          unfold cityExactStep at h
          exact List.mem_of_find?_eq_some h
        · rw [if_neg ht] at h
          unfold cityFuzzyStep at h
          exact List.mem_of_find?_eq_some h

theorem findMatchingProvince_noneName (ps : List String) :
    findMatchingProvince ps none = none := rfl

theorem findMatchingProvince_emptyName (ps : List String) :
    findMatchingProvince ps (some "") = none := by
  simp [findMatchingProvince]

theorem findMatchingCity_noneName (cl : Option (List String)) :
    findMatchingCity none cl = none := rfl

theorem findMatchingCity_emptyName (cl : Option (List String)) :
    findMatchingCity (some "") cl = none := by
  simp [findMatchingCity]

theorem findMatchingCity_noneList (name : Option String) :
    findMatchingCity name none = none := by
  cases name with
  | none => rfl
  | some n => simp [findMatchingCity]

theorem findMatchingCity_nilList (name : Option String) :
    findMatchingCity name (some []) = none := by
  cases name with
  | none => rfl
  | some n => simp [findMatchingCity]

/-! ### Claims -/

/-- C1 (corrected).  Round-trip identity for the exact-match step holds
    under the conditions the counterexample forces: resolving an entry's
    own stripped-and-lowercased form against its reference list returns
    that exact entry provided the stripped form is non-empty, is left
    unchanged by the query-side normalization, and the entry is the first
    of the list whose stripped form equals it. -/
theorem C1_exact_roundtrip :
    (∀ (ps : List String) (p : String),
      provStripEntryExact p ≠ "" →
      normalizeProvinceQuery (provStripEntryExact p) = provStripEntryExact p →
      provExactStep ps (provStripEntryExact p) = some p →
      findMatchingProvince ps (some (provStripEntryExact p)) = some p) ∧
    (∀ (cl : List String) (c : String),
      cityStrip c ≠ "" →
      normalizeCityQuery (cityStrip c) = cityStrip c →
      cityExactStep cl (cityStrip c) = some c →
      findMatchingCity (some (cityStrip c)) (some cl) = some c) := by
  constructor
  · intro ps p hq hn hfind
    have hqb : (provStripEntryExact p == "") = false := beq_eq_false_iff_ne.mpr hq
    have hp : p ≠ "" := by
      intro he
      subst he
      exact hq (by decide)
    simp only [findMatchingProvince, hqb, Bool.false_eq_true, if_false, hn, hfind, truthyOpt]
    simp [hp]
  · intro cl c hq hn hfind
    have hqb : (cityStrip c == "") = false := beq_eq_false_iff_ne.mpr hq
    have hp : c ≠ "" := by
      intro he
      subst he
      exact hq (by decide)
    have hcl : cl.isEmpty = false := by
      cases cl with
      | nil => exact absurd hfind (by simp [cityExactStep])
      | cons a t => rfl
    simp only [findMatchingCity, hqb, Bool.false_eq_true, if_false, hcl, hn, hfind, truthyOpt]
    simp [hp]

/-- Witness for C1 at a concrete entry of each kind of list. -/
theorem C1_exact_roundtrip_witness :
    findMatchingProvince ["DKI Jakarta"] (some (provStripEntryExact "DKI Jakarta")) =
        some "DKI Jakarta" ∧
    findMatchingCity (some (cityStrip "Kota Yogyakarta")) (some ["Kota Yogyakarta"]) =
        some "Kota Yogyakarta" :=
  ⟨C1_exact_roundtrip.1 ["DKI Jakarta"] "DKI Jakarta" (by decide) (by decide) (by decide),
   C1_exact_roundtrip.2 ["Kota Yogyakarta"] "Kota Yogyakarta" (by decide) (by decide) (by decide)⟩

/-- Counterexample to C1 as stated: the entry "Jawa" of the reference
    list ["Provinsi Jawa", "Jawa"] round-trips to the earlier entry
    "Provinsi Jawa", whose stripped form collides with it, not to "Jawa"
    itself. -/
theorem C1_exact_roundtrip_cex :
    provStripEntryExact "Jawa" = "jawa" ∧
    findMatchingProvince ["Provinsi Jawa", "Jawa"] (some (provStripEntryExact "Jawa")) =
        some "Provinsi Jawa" ∧
    ("Provinsi Jawa" : String) ≠ "Jawa" := by decide

/-- C2 (corrected).  The normalizer is idempotent exactly on inputs whose
    normalized form is a fixed point of each stage (lowercasing,
    leading-token strip, embedded-token strip); `normWith` covers both the
    province-rule and the city-rule normalization. -/
theorem C2_norm_idem_on_fixed :
    ∀ (lead emb : List (List Char)) (x : String),
      lowerStr (normWith lead emb x).data = (normWith lead emb x).data →
      stripLead lead (normWith lead emb x).data = (normWith lead emb x).data →
      replEmb emb (normWith lead emb x).data = (normWith lead emb x).data →
      normWith lead emb (normWith lead emb x) = normWith lead emb x := by
  intro lead emb x h1 h2 h3
  show String.mk
      (trimChars (replEmb emb (stripLead lead (lowerStr (normWith lead emb x).data)))) =
    normWith lead emb x
  rw [h1, h2, h3]
  exact congrArg String.mk (trimCharsIdem _)

/-- Witness for C2 on a normalized form that is a fixed point of all stages. -/
theorem C2_norm_idem_on_fixed_witness :
    normWith provLeadTokens provEmbTokens (normWith provLeadTokens provEmbTokens "Jawa Tengah") =
      normWith provLeadTokens provEmbTokens "Jawa Tengah" :=
  C2_norm_idem_on_fixed provLeadTokens provEmbTokens "Jawa Tengah"
    (by decide) (by decide) (by decide)

/-- Counterexample to C2 as stated: one application of the province
    normalizer gives "daerah yogyakarta" (the embedded strip exposes a
    new leading token), a second application strips further. -/
theorem C2_norm_idem_cex :
    normalizeProvinceQuery "Provinsi Daerah Istimewa Yogyakarta" = "daerah yogyakarta" ∧
    normalizeProvinceQuery (normalizeProvinceQuery "Provinsi Daerah Istimewa Yogyakarta") =
        "yogyakarta" ∧
    normalizeProvinceQuery (normalizeProvinceQuery "Provinsi Daerah Istimewa Yogyakarta") ≠
      normalizeProvinceQuery "Provinsi Daerah Istimewa Yogyakarta" := by decide

/-- C3 (confirmed).  Both resolvers only ever return verbatim members of
    the supplied reference list, or `none`. -/
theorem C3_membership :
    (∀ (ps : List String) (name : Option String) (r : String),
        findMatchingProvince ps name = some r → r ∈ ps) ∧
    (∀ (name : Option String) (cl : List String) (r : String),
        findMatchingCity name (some cl) = some r → r ∈ cl) :=
  ⟨fun _ _ _ h => findMatchingProvince_mem h, fun _ _ _ h => findMatchingCity_mem h⟩

/-- Witness for C3 at concrete resolutions. -/
theorem C3_membership_witness :
    ("Jawa Tengah" : String) ∈ ["Jawa Tengah"] ∧ ("Kab. Sleman" : String) ∈ ["Kab. Sleman"] :=
  ⟨C3_membership.1 ["Jawa Tengah"] (some "Jawa Tengah") "Jawa Tengah" (by decide),
   C3_membership.2 (some "Kab. Sleman") ["Kab. Sleman"] "Kab. Sleman" (by decide)⟩

/-- C4 (code bug).  The spec's Jakarta scenario fails on the code: the
    query normalizes to "khusus ibukota jakarta" (only the single leading
    token "daerah" is stripped, and the now-leading "khusus" is not
    preceded by whitespace, so the embedded strip leaves it), the entry
    strips to "dki jakarta", and neither string contains the other, so
    the resolver returns no match instead of "DKI Jakarta". -/
theorem C4_jakarta_no_match :
    normalizeProvinceQuery "Daerah Khusus Ibukota Jakarta" = "khusus ibukota jakarta" ∧
    provStripEntryExact "DKI Jakarta" = "dki jakarta" ∧
    provStripEntryFuzzy "DKI Jakarta" = "dki jakarta" ∧
    findMatchingProvince ["DKI Jakarta"] (some "Daerah Khusus Ibukota Jakarta") = none := by
  decide

/-- C5 (corrected).  The Sleman scenario: field selection and query
    construction are as claimed, but the query normalizes to ". sleman"
    (the strip removes "kab" and leaves the period), so the resolution
    succeeds at the substring-match step, not the exact-match step. -/
theorem C5_sleman_resolution :
    selectCity { county := some "Sleman" } = (some "Sleman", some "Kab.") ∧
    cityQueryOf "Sleman" (some "Kab.") = "Kab. Sleman" ∧
    normalizeCityQuery "Kab. Sleman" = ". sleman" ∧
    cityFuzzyStep ["Kab. Sleman", "Kota Yogyakarta"] (normalizeCityQuery "Kab. Sleman") =
        some "Kab. Sleman" ∧
    findMatchingCity (some "Kab. Sleman") (some ["Kab. Sleman", "Kota Yogyakarta"]) =
        some "Kab. Sleman" := by decide

/-- Counterexample to C5 as stated: the exact-match step does not succeed
    on the constructed query. -/
theorem C5_sleman_cex :
    cityExactStep ["Kab. Sleman", "Kota Yogyakarta"]
        (normalizeCityQuery (cityQueryOf "Sleman" (some "Kab."))) = none := by decide

/-- C6 (corrected).  For every rawCity string and every city reference
    list whose first entry is a non-empty string, the city step of
    `setLocation` selects a member of the list (the resolver's result, or
    the first entry as fallback) and touches no error state. -/
theorem C6_city_fallback :
    ∀ (st : LocationState) (prov raw c0 : String) (rest : List String),
      c0 ≠ "" →
      ∃ c, (setLocation st prov raw (c0 :: rest)).selectedCity = some c ∧ c ∈ c0 :: rest ∧
        (setLocation st prov raw (c0 :: rest)).locationError = st.locationError := by
  intro st prov raw c0 rest h0
  cases hm : findMatchingCity (some raw) (some (c0 :: rest)) with
  | none =>
    refine ⟨c0, ?_, List.mem_cons_self c0 rest, rfl⟩
    simp [setLocation, hm, jsOr, truthyOpt, bne_iff_ne, h0]
  | some m =>
    by_cases hme : m = ""
    · subst hme
      refine ⟨c0, ?_, List.mem_cons_self c0 rest, rfl⟩
      simp [setLocation, hm, jsOr, truthyOpt, bne_iff_ne, h0]
    · refine ⟨m, ?_, findMatchingCity_mem hm, rfl⟩
      simp [setLocation, hm, jsOr, truthyOpt, bne_iff_ne, hme]

/-- Witness for C6: the spec's degraded-match scenario, where no match
    exists and the fallback picks the first entry. -/
theorem C6_city_fallback_witness :
    ∃ c,
      (setLocation initialLocationState "DKI Jakarta" "Tanjung Priok"
          ["Kota Jakarta Utara"]).selectedCity = some c ∧
      c ∈ ["Kota Jakarta Utara"] ∧
      (setLocation initialLocationState "DKI Jakarta" "Tanjung Priok"
          ["Kota Jakarta Utara"]).locationError = initialLocationState.locationError :=
  C6_city_fallback initialLocationState "DKI Jakarta" "Tanjung Priok"
    "Kota Jakarta Utara" [] (by decide)

/-- Counterexample to C6 as stated: with the non-empty reference list
    [""] (its only entry the empty string), the matched value and the
    fallback are both falsy, so no city is set at all. -/
theorem C6_city_fallback_cex :
    (setLocation initialLocationState "Jawa Tengah" "Tanjung Priok" [""]).selectedCity =
      none := by decide

/-- C7 (confirmed).  An empty or absent candidate never matches, an empty
    candidate at the head of the candidate list is skipped, the
    `.filter(Boolean)` of the field selector drops it, and the concrete
    list ["", "Jawa Tengah"] resolves to the entry "Jawa Tengah". -/
theorem C7_candidate_order :
    (∀ ps : List String, findMatchingProvince ps (some "") = none) ∧
    (∀ ps : List String, findMatchingProvince ps none = none) ∧
    (∀ ps : List String,
      findFirstProvince ps ["", "Jawa Tengah"] = findFirstProvince ps ["Jawa Tengah"]) ∧
    provinceCandidates { state := some "", state_district := some "Jawa Tengah" } =
        ["Jawa Tengah"] ∧
    findFirstProvince ["Jawa Barat", "Jawa Tengah"] ["", "Jawa Tengah"] =
        some "Jawa Tengah" := by
  refine ⟨fun ps => findMatchingProvince_emptyName ps, fun ps => rfl, fun ps => ?_,
    by decide, by decide⟩
  simp [findFirstProvince, findMatchingProvince_emptyName ps]

/-- C8 (corrected).  The leading-token strip is anchored only at the
    start of the string, not at a word boundary: a token that is merely a
    prefix of the first word is still stripped. -/
theorem C8_strip_not_word_anchored :
    stripLead cityLeadTokens (lowerStr "Kotamobagu".data) = "mobagu".data ∧
    normalizeCityQuery "Kotamobagu" = "mobagu" ∧
    normalizeProvinceQuery "Provence" = "ence" := by decide

/-- Counterexample to C8 as stated: "Kotamobagu" is not left unchanged by
    the leading strip of the city normalization. -/
theorem C8_strip_not_word_anchored_cex :
    stripLead cityLeadTokens (lowerStr "Kotamobagu".data) ≠ lowerStr "Kotamobagu".data ∧
    normalizeCityQuery "Kotamobagu" ≠ "kotamobagu" := by decide

/-- C9 (confirmed).  The resolvers are total functions in this model (no
    exception path exists), and every absent/empty query string and
    absent/empty city list yields the no-candidate result `none`. -/
theorem C9_falsy_inputs :
    (∀ ps : List String, findMatchingProvince ps none = none) ∧
    (∀ ps : List String, findMatchingProvince ps (some "") = none) ∧
    (∀ cl : Option (List String), findMatchingCity none cl = none) ∧
    (∀ cl : Option (List String), findMatchingCity (some "") cl = none) ∧
    (∀ name : Option String, findMatchingCity name none = none) ∧
    (∀ name : Option String, findMatchingCity name (some []) = none) :=
  ⟨fun ps => findMatchingProvince_noneName ps,
   fun ps => findMatchingProvince_emptyName ps,
   fun cl => findMatchingCity_noneName cl,
   fun cl => findMatchingCity_emptyName cl,
   fun name => findMatchingCity_noneList name,
   fun name => findMatchingCity_nilList name⟩

/-- C10 (confirmed).  With an empty scoped city list (the `fetchCities`
    collaborator failed or returned no entries), `setLocation` records
    the province and clears the locating flag, leaves the selected city
    untouched, and signals no error. -/
theorem C10_empty_city_list_silent :
    ∀ (st : LocationState) (prov raw : String),
      (setLocation st prov raw []).selectedProvince = some prov ∧
      (setLocation st prov raw []).selectedCity = st.selectedCity ∧
      (setLocation st prov raw []).locating = false ∧
      (setLocation st prov raw []).locationError = st.locationError := by
  intro st prov raw
  refine ⟨rfl, ?_, rfl, rfl⟩
  simp [setLocation, findMatchingCity_nilList, jsOr, truthyOpt]
